import Mathlib

/-!
Shallow embedding of the order/payment core of the `ecommerce_template`
repository (`src/store/views.py`, `src/store/urls.py`, `src/vendor/views.py`).

Money is modelled as `ℚ` (the Python code uses exact `Decimal` arithmetic on
the values relevant here), vendors and coupons by `Nat` identifiers, and the
Django ORM state by explicit lists of records.  Each payment-verification view
becomes a pure function from the order state and the provider environment
(HTTP responses, signature validity, session status) to the new order state,
the side effects performed, and the HTTP-level outcome.  An unhandled Python
exception is the explicit outcome `Outcome.exn`, and a Django view that falls
off the end and returns `None` is `Outcome.noResponse`.
-/

namespace ECom

/-- HTTP-level result of a payment-verification view: the redirect to the
payment-status page with the `paid` flag, the redirect with the `failed` flag,
the view returning Python `None` (no response at all), or an unhandled
exception propagating out of the view. -/
inductive Outcome where
  | redirectPaid
  | redirectFailed
  | noResponse
  | exn
deriving DecidableEq

/-- Side effects a verification view may perform on success: clearing the
session cart, creating customer notifications, sending the customer
confirmation email, and the list of per-message vendor targets (one entry per
vendor email or vendor dashboard notification actually dispatched, in
dispatch order). -/
structure Effects where
  cartCleared : Bool
  customerNotifications : Nat
  customerEmails : Nat
  vendorMessages : List Nat
deriving DecidableEq

/-- The empty side-effect record: nothing cleared, nothing sent. -/
def noEffects : Effects :=
  { cartCleared := false, customerNotifications := 0, customerEmails := 0,
    vendorMessages := [] }

/-- An `Order` row.  `store/models.py` is not part of `src/`; the fields here
are exactly those read and written by `src/store/views.py`.
Modelled from the spec: the model defaults `payment_status = "Processing"`,
`payment_method` unset, `saved = 0` and no applied coupons (spec section 3,
"payment_status ∈ \x7bProcessing, Paid\x7d", and section 4.2 step 5, "Creates the
Order with payment_status = Processing"). -/
structure Order where
  payment_status : String
  payment_method : Option String
  sub_total : ℚ
  shipping : ℚ
  tax : ℚ
  service_fee : ℚ
  total : ℚ
  saved : ℚ
  coupons : List Nat
deriving DecidableEq

/-- An `OrderItem` row, with the fields touched by `src/store/views.py`:
`productVendor` is `item.product.vendor` (the product's current vendor, used
by `coupon_apply`), `vendorId` the vendor denormalized onto the item at
creation (used for vendor emails and notifications), `coupon` the m2m set of
coupons applied to this item, and `item_id` / `tracking_id` the public
identifiers used by the order tracker. -/
structure OrderItem where
  productVendor : Nat
  vendorId : Nat
  qty : Nat
  price : ℚ
  sub_total : ℚ
  shipping : ℚ
  tax : ℚ
  total : ℚ
  initial_total : ℚ
  saved : ℚ
  coupon : List Nat
  item_id : String
  tracking_id : String
deriving DecidableEq

/-- A `Cart` row (one cart line), with the stored money fields that
`create_order` aggregates. -/
structure CartLine where
  productVendor : Nat
  qty : Nat
  price : ℚ
  sub_total : ℚ
  shipping : ℚ
  total : ℚ
deriving DecidableEq

/-- A `Coupon` row: identifier, owning vendor, and percentage discount. -/
structure Coupon where
  id : Nat
  vendor : Nat
  discount : ℚ
deriving DecidableEq

/-- Python truthiness of an optional request parameter: `None` and the empty
string are falsy, any other string is truthy (mirrors `if not id` etc. in
`add_to_cart` and `delete_cart_item`). -/
def truthy : Option String → Bool
  | none => false
  | some s => !(s == "")

/-- Cart-line construction as performed by `add_to_cart`
(`src/store/views.py` lines 156-169): `sub_total = price * qty`,
`shipping = product.shipping * qty`, `total = sub_total + shipping`. -/
def mkCartLine (productVendor : Nat) (price shippingUnit : ℚ) (qty : Nat) :
    CartLine :=
  { productVendor := productVendor
    qty := qty
    price := price
    sub_total := price * qty
    shipping := shippingUnit * qty
    total := price * qty + shippingUnit * qty }

/-- Result of the `delete_cart_item` view (`src/store/views.py` lines
224-250): the 400 "Item or Product id not found" response, the 404
"Product not found" response, the uncaught `Cart.DoesNotExist` exception from
`Cart.objects.get`, or the success JSON response (carrying the id of the
deleted line). -/
inductive DeleteOutcome where
  | paramError
  | productNotFound
  | cartGetExn
  | deleted (line : Nat)
deriving DecidableEq

/-- The `delete_cart_item` view (`src/store/views.py` lines 224-250).
`findProduct` abstracts `Product.objects.get(status="Published", id=id)`
(`none` meaning `DoesNotExist`), and `findCartItem` abstracts
`Cart.objects.get(product=product, id=item_id)`. -/
def delete_cart_item (id item_id cart_id : Option String)
    (findProduct : Option String → Option Nat)
    (findCartItem : Nat → Option String → Option Nat) : DeleteOutcome :=
  if !truthy id && !truthy item_id && !truthy cart_id then
    .paramError
  else
    match findProduct id with
    | none => .productNotFound
    | some p =>
      match findCartItem p item_id with
      | none => .cartGetExn
      | some line => .deleted line

/-- Result of the `create_order` view (`src/store/views.py` lines 252-300):
the "Please select an address" warning redirect back to the cart, an
unhandled exception (for an empty cart the `Sum` aggregates are `None` and
`order.sub_total + order.shipping` raises `TypeError` before `order.save()`;
a missing address row raises `AttributeError` at `address.country`), or the
created order together with its order items. -/
inductive CreateOrderResult where
  | noAddressRedirect
  | exn
  | created (o : Order) (items : List OrderItem)
deriving DecidableEq

/-- Whether a `create_order` result is a user-facing validation abort (a
message plus redirect, the spec's "Validation" taxonomy), as opposed to an
unhandled exception or a created order. -/
def isValidationAbort : CreateOrderResult → Bool
  | .noAddressRedirect => true
  | _ => false

/-- Order construction from the non-empty cart path of `create_order`
(`src/store/views.py` lines 266-279): `sub_total` and `shipping` are the cart
aggregates, `tax = tax_calculation(country, sub_total)`,
`total = sub_total + shipping + tax`, then
`service_fee = calculate_service_fee(total)` and `total += service_fee`. -/
def buildOrder (tax : String → ℚ → ℚ) (fee : ℚ → ℚ) (country : String)
    (lines : List CartLine) : Order :=
  let s := (lines.map (fun l => l.sub_total)).sum
  let sh := (lines.map (fun l => l.shipping)).sum
  let t := tax country s
  let beforeFee := s + sh + t
  let f := fee beforeFee
  { payment_status := "Processing"
    payment_method := none
    sub_total := s
    shipping := sh
    tax := t
    service_fee := f
    total := beforeFee + f
    saved := 0
    coupons := [] }

/-- Order-item construction from the loop of `create_order`
(`src/store/views.py` lines 281-297): each cart line yields one item, copying
the stored money fields, computing the item's own tax from the line's
sub_total, setting `initial_total = total`, and denormalizing the product's
vendor onto the item. -/
def buildItems (tax : String → ℚ → ℚ) (country : String)
    (lines : List CartLine) : List OrderItem :=
  lines.map (fun l =>
    { productVendor := l.productVendor
      vendorId := l.productVendor
      qty := l.qty
      price := l.price
      sub_total := l.sub_total
      shipping := l.shipping
      tax := tax country l.sub_total
      total := l.total
      initial_total := l.total
      saved := 0
      coupon := []
      item_id := ""
      tracking_id := "" })

/-- The `create_order` view (`src/store/views.py` lines 252-300).
`addressExists` abstracts whether `Address.objects.filter(...).first()`
found a row for the posted address id; when it did not, `address.country`
raises `AttributeError`.  There is no empty-cart validation in the code: an
empty cart makes both `Sum` aggregates `None` and the total arithmetic at
line 276 raises `TypeError` before the order is saved. -/
def create_order (tax : String → ℚ → ℚ) (fee : ℚ → ℚ)
    (addressId : Option String) (addressExists : Bool) (country : String)
    (lines : List CartLine) : CreateOrderResult :=
  if !truthy addressId then
    .noAddressRedirect
  else if !addressExists then
    .exn
  else if lines.isEmpty then
    .exn
  else
    .created (buildOrder tax fee country lines) (buildItems tax country lines)

/-- User-facing result of the `coupon_apply` view
(`src/store/views.py` lines 302-350). -/
inductive CouponOutcome where
  | orderNotFound
  | noCouponEntered
  | couponNotFound
  | alreadyActivated
  | activated
deriving DecidableEq

/-- Discount the `coupon_apply` loop computes for one item
(`src/store/views.py` line 333): `item.total * coupon.discount / 100` when
the coupon's vendor matches the item's product's vendor and the coupon is not
already on the item, and `0` otherwise. -/
def itemDiscount (c : Coupon) (it : OrderItem) : ℚ :=
  if c.vendor = it.productVendor ∧ c.id ∉ it.coupon then
    it.total * c.discount / 100
  else 0

/-- Per-item update of the `coupon_apply` loop (`src/store/views.py` lines
331-339): an eligible item records the coupon, loses the discount from its
total, and gains it on `saved`; any other item is untouched. -/
def applyCouponToItem (c : Coupon) (it : OrderItem) : OrderItem :=
  if c.vendor = it.productVendor ∧ c.id ∉ it.coupon then
    let d := it.total * c.discount / 100
    { it with coupon := it.coupon ++ [c.id]
              total := it.total - d
              saved := it.saved + d }
  else it

/-- Core of the `coupon_apply` view (`src/store/views.py` lines 325-350),
after the order and coupon have been found and a non-empty code posted: if
the coupon is already on the order the view warns "Coupon already activated";
otherwise every item is processed by `applyCouponToItem`, the accumulated
`total_discount` is the sum of the per-item discounts, and only when it is
strictly positive are the order's coupon set, `total`, `sub_total` and
`saved` updated. -/
def coupon_apply (o : Order) (items : List OrderItem) (c : Coupon) :
    Order × List OrderItem × CouponOutcome :=
  if c.id ∈ o.coupons then
    (o, items, .alreadyActivated)
  else if 0 < (items.map (itemDiscount c)).sum then
    ({ o with coupons := o.coupons ++ [c.id]
              total := o.total - (items.map (itemDiscount c)).sum
              sub_total := o.sub_total - (items.map (itemDiscount c)).sum
              saved := o.saved + (items.map (itemDiscount c)).sum },
     items.map (applyCouponToItem c), .activated)
  else (o, items.map (applyCouponToItem c), .activated)

/-- The order-total invariant of the spec: `total` equals the sum of
`sub_total`, shipping, tax and service fee. -/
def orderInv (o : Order) : Prop :=
  o.total = o.sub_total + o.shipping + o.tax + o.service_fee

/-- The `stripe_payment_verify` view (`src/store/views.py` lines 410-456).
`session` is the result of `stripe.checkout.Session.retrieve(session_id)`:
`none` when the retrieval raises (missing or invalid session id, network
failure) and `some st` the retrieved session's `payment_status`.  On the
permitted transition the view clears the cart, creates one customer
notification, sends one customer email, and sends one vendor email per order
item (addressed to `item.vendor`).  It never writes `payment_method`. -/
def stripe_payment_verify (session : Option String) (o : Order)
    (items : List OrderItem) : Order × Effects × Outcome :=
  match session with
  | none => (o, noEffects, .exn)
  | some st =>
    if st = "paid" then
      if o.payment_status = "Processing" then
        ({ o with payment_status := "Paid" },
         { cartCleared := true, customerNotifications := 1,
           customerEmails := 1,
           vendorMessages := items.map (fun it => it.vendorId) },
         .redirectPaid)
      else (o, noEffects, .redirectFailed)
    else (o, noEffects, .redirectFailed)

/-- The `paypal_payment_verify` view (`src/store/views.py` lines 469-492).
`tokenOk = false` models `get_paypal_access_token` raising its `Exception`;
`resp = none` models a network error from `requests.get`; otherwise `resp`
carries the HTTP status code and the PayPal order status.  Note the missing
`else` branches: with HTTP 200 and a status other than `COMPLETED`, or an
order not in `Processing`, the view returns Python `None`. -/
def paypal_payment_verify (tokenOk : Bool) (resp : Option (Nat × String))
    (pm : Option String) (o : Order) : Order × Effects × Outcome :=
  if !tokenOk then (o, noEffects, .exn)
  else
    match resp with
    | none => (o, noEffects, .exn)
    | some (code, st) =>
      if code = 200 then
        if st = "COMPLETED" then
          if o.payment_status = "Processing" then
            ({ o with payment_status := "Paid", payment_method := pm },
             { noEffects with cartCleared := true }, .redirectPaid)
          else (o, noEffects, .noResponse)
        else (o, noEffects, .noResponse)
      else (o, noEffects, .redirectFailed)

/-- The `razorpay_payment_verify` view (`src/store/views.py` lines 494-540).
`sigValid = false` models `razorpay_client.utility.verify_payment_signature`
raising `SignatureVerificationError`; the view has no try/except around it,
so the exception propagates out of the view.  On the permitted transition the
view sets `payment_method`, clears the cart, creates one customer
notification, and creates one vendor dashboard notification per order item. -/
def razorpay_payment_verify (isPost sigValid : Bool) (pm : Option String)
    (o : Order) (items : List OrderItem) : Order × Effects × Outcome :=
  if isPost then
    if !sigValid then (o, noEffects, .exn)
    else if o.payment_status = "Processing" then
      ({ o with payment_status := "Paid", payment_method := pm },
       { cartCleared := true, customerNotifications := 1,
         customerEmails := 0,
         vendorMessages := items.map (fun it => it.vendorId) },
       .redirectPaid)
    else (o, noEffects, .redirectFailed)
  else (o, noEffects, .redirectFailed)

/-- The `paystack_payment_verify` view (`src/store/views.py` lines 542-573).
`reference` is `request.GET.get('reference', '')`; an empty reference goes
straight to the failure redirect.  `resp = none` models a network or JSON
error; otherwise `resp` carries the top-level `status` flag and the nested
`data.status` string of the verification response. -/
def paystack_payment_verify (reference : String)
    (resp : Option (Bool × String)) (pm : Option String) (o : Order) :
    Order × Effects × Outcome :=
  if reference = "" then (o, noEffects, .redirectFailed)
  else
    match resp with
    | none => (o, noEffects, .exn)
    | some (flag, dstatus) =>
      if flag then
        if dstatus = "success" then
          if o.payment_status = "Processing" then
            ({ o with payment_status := "Paid", payment_method := pm },
             { noEffects with cartCleared := true }, .redirectPaid)
          else (o, noEffects, .redirectFailed)
        else (o, noEffects, .redirectFailed)
      else (o, noEffects, .redirectFailed)

/-- The `flutterwave_payment_callback` view (`src/store/views.py` lines
575-597).  `resp = none` models a network error from `requests.get`;
otherwise `resp` carries the HTTP status code and the provider-reported
transaction status found in the response body.  The code branches on the
HTTP status code only: the provider-reported status is never read (the `st`
component is unused), and the response body is never parsed. -/
def flutterwave_payment_callback (resp : Option (Nat × String))
    (pm : Option String) (o : Order) : Order × Effects × Outcome :=
  match resp with
  | none => (o, noEffects, .exn)
  | some (code, _st) =>
    if code = 200 then
      if o.payment_status = "Processing" then
        ({ o with payment_status := "Paid", payment_method := pm },
         { noEffects with cartCleared := true }, .redirectPaid)
      else (o, noEffects, .redirectFailed)
    else (o, noEffects, .redirectFailed)

/-- One payment-verification callback of any provider, together with its
provider environment (retrieved session status, HTTP responses, signature
validity, posted method tag). -/
inductive PayCallback where
  | stripe (session : Option String)
  | paypal (tokenOk : Bool) (resp : Option (Nat × String)) (pm : Option String)
  | razorpay (isPost : Bool) (sigValid : Bool) (pm : Option String)
  | paystack (reference : String) (resp : Option (Bool × String))
      (pm : Option String)
  | flutterwave (resp : Option (Nat × String)) (pm : Option String)
deriving DecidableEq

/-- Dispatch a callback to its adapter. -/
def runCallback : PayCallback → Order → List OrderItem →
    Order × Effects × Outcome
  | .stripe s, o, items => stripe_payment_verify s o items
  | .paypal t r pm, o, _ => paypal_payment_verify t r pm o
  | .razorpay p sv pm, o, items => razorpay_payment_verify p sv pm o items
  | .paystack ref r pm, o, _ => paystack_payment_verify ref r pm o
  | .flutterwave r pm, o, _ => flutterwave_payment_callback r pm o

/-- Run a sequence of verification callbacks against an order, threading the
order state through (each list element is a callback together with the
order's item list at that moment). -/
def runTrace (tr : List (PayCallback × List OrderItem)) (o : Order) : Order :=
  tr.foldl (fun acc p => (runCallback p.1 acc p.2).1) o

/-- Whether a callback's provider environment makes the view raise an
unhandled exception: a failed Stripe session retrieval, a failed PayPal
token fetch or network error, a Razorpay POST whose signature verification
raises, a Paystack network/JSON error on a non-empty reference, or a
Flutterwave network error. -/
def cbRaises : PayCallback → Bool
  | .stripe none => true
  | .stripe (some _) => false
  | .paypal tokenOk resp _ => !tokenOk || resp.isNone
  | .razorpay isPost sigValid _ => isPost && !sigValid
  | .paystack reference resp _ => !(reference == "") && resp.isNone
  | .flutterwave resp _ => resp.isNone

/-- Whether a callback hits the PayPal fall-through: token obtained, HTTP
200, and either a status other than `COMPLETED` or an order that is not in
`Processing` — the branches in which `paypal_payment_verify` returns Python
`None` instead of a redirect. -/
def paypalFallsThrough : PayCallback → Order → Bool
  | .paypal true (some (code, st)) _, o =>
      code == 200 && (!(st == "COMPLETED") || !(o.payment_status == "Processing"))
  | _, _ => false

/-- Result of the `order_tracker_detail` view (`src/store/views.py` lines
674-685): either the normal render of the tracker template with the looked-up
item (possibly `none` — `.first()` on an empty queryset returns `None`
without raising), or the "Order not found!" error redirect of the `except`
branch, which a string lookup never reaches. -/
inductive TrackerResult where
  | rendersItem (it : Option OrderItem)
  | errorRedirect
deriving DecidableEq

/-- The `order_tracker_detail` view (`src/store/views.py` lines 674-685):
`OrderItem.objects.filter(Q(item_id=q) | Q(tracking_id=q)).first()` is the
first stored item whose `item_id` or `tracking_id` equals the query, and the
view renders the template with whatever `.first()` produced. -/
def order_tracker_detail (items : List OrderItem) (q : String) :
    TrackerResult :=
  .rendersItem (items.find? (fun it => it.item_id == q || it.tracking_id == q))

/-- Tax function of the spec's worked scenario: `tax(country, 40.00) = 4.00`
(and zero elsewhere, which the scenario never consults). -/
def taxS : String → ℚ → ℚ := fun _ a => if a = 40 then 4 else 0

/-- Service-fee function of the spec's worked scenario:
`service_fee(54.00) = 1.00`. -/
def feeS : ℚ → ℚ := fun a => if a = 54 then 1 else 0

/-- The scenario's single cart line: price 20.00, qty 2, shipping 5.00. -/
def lineS : CartLine := mkCartLine 1 20 5 2

/-- A concrete order awaiting payment, with the scenario's totals. -/
def procOrderW : Order :=
  { payment_status := "Processing", payment_method := none, sub_total := 40,
    shipping := 10, tax := 4, service_fee := 1, total := 55, saved := 0,
    coupons := [] }

/-- The same order after payment. -/
def paidOrderW : Order := { procOrderW with payment_status := "Paid" }

/-- Build a concrete order item of a given vendor and total. -/
def mkItemW (v : Nat) (amount : ℚ) (iid tid : String) : OrderItem :=
  { productVendor := v, vendorId := v, qty := 1, price := amount,
    sub_total := amount, shipping := 0, tax := 0, total := amount,
    initial_total := amount, saved := 0, coupon := [], item_id := iid,
    tracking_id := tid }

/-- Two order items belonging to the same vendor 7. -/
def itemV7a : OrderItem := mkItemW 7 20 "I-A" "T-A"

/-- Second item of vendor 7. -/
def itemV7b : OrderItem := mkItemW 7 30 "I-B" "T-B"

/-- An order item with known public item and tracking identifiers. -/
def itemT : OrderItem := mkItemW 3 15 "ITEM1" "TRK1"

/-- A coupon owned by vendor 1 granting 10 percent. -/
def couponW : Coupon := { id := 9, vendor := 1, discount := 10 }

/-- An order item of vendor 1 with total 50. -/
def itemAW : OrderItem := mkItemW 1 50 "I-1" "T-1"

/-- An order item of vendor 2 with total 30. -/
def itemBW : OrderItem := mkItemW 2 30 "I-2" "T-2"

/-- A concrete two-vendor order before any coupon. -/
def orderW4 : Order :=
  { payment_status := "Processing", payment_method := none, sub_total := 80,
    shipping := 0, tax := 0, service_fee := 0, total := 80, saved := 0,
    coupons := [] }

/-- A verification callback that observes an order outside `Processing`
leaves the order record untouched and performs no side effects. -/
theorem runCallback_frozen (cb : PayCallback) (o : Order)
    (items : List OrderItem) (h : o.payment_status ≠ "Processing") :
    (runCallback cb o items).1 = o ∧ (runCallback cb o items).2.1 = noEffects := by
  cases cb with
  | stripe s =>
    rcases s with _ | st
    · exact ⟨rfl, rfl⟩
    · simp only [runCallback, stripe_payment_verify]
      split_ifs <;> simp_all
  | paypal t r pm =>
    cases t
    · exact ⟨rfl, rfl⟩
    · rcases r with _ | ⟨code, st⟩
      · exact ⟨rfl, rfl⟩
      · simp only [runCallback, paypal_payment_verify]
        split_ifs <;> simp_all
  | razorpay p sv pm =>
    simp only [runCallback, razorpay_payment_verify]
    split_ifs <;> simp_all
  | paystack ref r pm =>
    rcases r with _ | ⟨flag, ds⟩ <;>
      simp only [runCallback, paystack_payment_verify] <;>
      split_ifs <;> simp_all
  | flutterwave r pm =>
    rcases r with _ | ⟨code, st⟩
    · exact ⟨rfl, rfl⟩
    · simp only [runCallback, flutterwave_payment_callback]
      split_ifs <;> simp_all

/-- Every verification callback either leaves `payment_status` unchanged or
performs the one permitted Processing to Paid transition. -/
theorem runCallback_status (cb : PayCallback) (o : Order)
    (items : List OrderItem) :
    (runCallback cb o items).1.payment_status = o.payment_status ∨
      (o.payment_status = "Processing" ∧
        (runCallback cb o items).1.payment_status = "Paid") := by
  by_cases h : o.payment_status = "Processing"
  · cases cb with
    | stripe s =>
      rcases s with _ | st
      · exact Or.inl rfl
      · simp only [runCallback, stripe_payment_verify]
        split_ifs <;> first
          | exact Or.inr ⟨h, rfl⟩
          | exact Or.inl rfl
    | paypal t r pm =>
      cases t
      · exact Or.inl rfl
      · rcases r with _ | ⟨code, st⟩
        · exact Or.inl rfl
        · simp only [runCallback, paypal_payment_verify]
          split_ifs <;> first
            | exact Or.inr ⟨h, rfl⟩
            | exact Or.inl rfl
    | razorpay p sv pm =>
      simp only [runCallback, razorpay_payment_verify]
      split_ifs <;> first
        | exact Or.inr ⟨h, rfl⟩
        | exact Or.inl rfl
    | paystack ref r pm =>
      rcases r with _ | ⟨flag, ds⟩ <;>
        simp only [runCallback, paystack_payment_verify] <;>
        split_ifs <;> first
          | exact Or.inr ⟨h, rfl⟩
          | exact Or.inl rfl
    | flutterwave r pm =>
      rcases r with _ | ⟨code, st⟩
      · exact Or.inl rfl
      · simp only [runCallback, flutterwave_payment_callback]
        split_ifs <;> first
          | exact Or.inr ⟨h, rfl⟩
          | exact Or.inl rfl
  · exact Or.inl (congrArg Order.payment_status (runCallback_frozen cb o items h).1)

/-- Along every callback trace, an order whose status is `Processing` or
`Paid` stays within those two states. -/
theorem runTrace_status (tr : List (PayCallback × List OrderItem)) (o : Order)
    (h : o.payment_status = "Processing" ∨ o.payment_status = "Paid") :
    (runTrace tr o).payment_status = "Processing" ∨
      (runTrace tr o).payment_status = "Paid" := by
  induction tr generalizing o with
  | nil => simpa [runTrace] using h
  | cons p t ih =>
    have hstep : runTrace (p :: t) o = runTrace t (runCallback p.1 o p.2).1 := by
      simp [runTrace]
    rw [hstep]
    apply ih
    rcases runCallback_status p.1 o p.2 with h1 | ⟨_, h3⟩
    · rw [h1]; exact h
    · exact Or.inr h3

/-- C1: the Processing to Paid transition happens at most once and is never
reversed.  Any verification callback of any provider that observes
`payment_status ≠ "Processing"` leaves the whole order record (status,
method, totals) unchanged and performs no success side effect; every callback
either preserves `payment_status` or performs the one Processing to Paid
transition; and along every callback trace from an order in `Processing` the
status stays in the set containing `"Processing"` and `"Paid"`. -/
theorem claim_c1_payment_status_monotone (cb : PayCallback) (o : Order)
    (items : List OrderItem) (h : o.payment_status ≠ "Processing") :
    (runCallback cb o items).1 = o ∧
    (runCallback cb o items).2.1 = noEffects ∧
    (∀ (cb' : PayCallback) (o' : Order) (items' : List OrderItem),
      (runCallback cb' o' items').1.payment_status = o'.payment_status ∨
        (o'.payment_status = "Processing" ∧
          (runCallback cb' o' items').1.payment_status = "Paid")) ∧
    (∀ (tr : List (PayCallback × List OrderItem)) (o0 : Order),
      o0.payment_status = "Processing" →
        (runTrace tr o0).payment_status = "Processing" ∨
          (runTrace tr o0).payment_status = "Paid") := by
  refine ⟨(runCallback_frozen cb o items h).1,
          (runCallback_frozen cb o items h).2, ?_, ?_⟩
  · intro cb' o' items'
    exact runCallback_status cb' o' items'
  · intro tr o0 h0
    exact runTrace_status tr o0 (Or.inl h0)

/-- Witness for C1: a Stripe success callback against an order already in
`Paid` changes nothing. -/
theorem claim_c1_witness :
    paidOrderW.payment_status ≠ "Processing" ∧
    (runCallback (.stripe (some "paid")) paidOrderW [itemV7a]).1 = paidOrderW := by
  refine ⟨by decide, ?_⟩
  exact (claim_c1_payment_status_monotone (.stripe (some "paid")) paidOrderW
    [itemV7a] (by decide)).1

/-- C2 (code bug): a Razorpay POST whose signature fails verification leaves
the order in `Processing` with no side effects and is never treated as paid,
but the `SignatureVerificationError` raised by
`razorpay_client.utility.verify_payment_signature` propagates out of the view
unhandled (`Outcome.exn`): the view has no try/except, so the failure
redirect required by the spec is never produced. -/
theorem claim_c2_razorpay_signature_exception :
    razorpay_payment_verify true false (some "Razorpay") procOrderW [itemV7a] =
      (procOrderW, noEffects, Outcome.exn) ∧
    Outcome.exn ≠ Outcome.redirectFailed ∧
    Outcome.exn ≠ Outcome.redirectPaid := by
  refine ⟨rfl, by decide, by decide⟩

/-- C3: the order-total equation `total = sub_total + shipping + tax +
service_fee` holds for every order the builder creates, is preserved by every
coupon application, and the spec's worked scenario (one line of price 20,
qty 2, shipping 5, with tax 4 on 40 and service fee 1 on 54) yields
sub_total 40, shipping 10 and total 55. -/
theorem claim_c3_order_total_invariant (tax : String → ℚ → ℚ) (fee : ℚ → ℚ)
    (country : String) (lines : List CartLine) (o : Order)
    (items : List OrderItem) (c : Coupon) (h : orderInv o) :
    orderInv (buildOrder tax fee country lines) ∧
    orderInv (coupon_apply o items c).1 ∧
    (buildOrder taxS feeS "US" [lineS]).sub_total = 40 ∧
    (buildOrder taxS feeS "US" [lineS]).shipping = 10 ∧
    (buildOrder taxS feeS "US" [lineS]).total = 55 := by
  refine ⟨?_, ?_,
    by norm_num [buildOrder, taxS, feeS, lineS, mkCartLine],
    by norm_num [buildOrder, taxS, feeS, lineS, mkCartLine],
    by norm_num [buildOrder, taxS, feeS, lineS, mkCartLine]⟩
  · simp only [buildOrder, orderInv]
  · unfold coupon_apply
    split_ifs with h1 h2
    · exact h
    · unfold orderInv at h ⊢
      simp only
      linarith
    · exact h

/-- Witness for C3: the invariant holds for a concrete order and a concrete
non-empty cart build. -/
theorem claim_c3_witness :
    orderInv procOrderW ∧ orderInv (buildOrder taxS feeS "US" [lineS]) := by
  have h : orderInv procOrderW := by unfold orderInv procOrderW; norm_num
  exact ⟨h, (claim_c3_order_total_invariant taxS feeS "US" [lineS] procOrderW
    [] couponW h).1⟩

/-- C4: applying a coupon of vendor V1 not yet on the order discounts exactly
the items whose product's vendor is V1 and which do not already carry this
coupon (each by `total * discount / 100`, recorded on the item), leaves every
other item untouched, and decreases `order.total` and `order.sub_total` by
exactly the sum of those item discounts while adding it to `order.saved`. -/
theorem claim_c4_coupon_vendor_scoped (o : Order) (items : List OrderItem)
    (c : Coupon) (hnew : c.id ∉ o.coupons) (hd : 0 ≤ c.discount)
    (hpos : ∀ it ∈ items, 0 ≤ it.total) :
    (coupon_apply o items c).2.1 = items.map (applyCouponToItem c) ∧
    (∀ it ∈ items, ¬(c.vendor = it.productVendor ∧ c.id ∉ it.coupon) →
      applyCouponToItem c it = it) ∧
    (∀ it ∈ items, c.vendor = it.productVendor → c.id ∉ it.coupon →
      applyCouponToItem c it =
        { it with coupon := it.coupon ++ [c.id]
                  total := it.total - it.total * c.discount / 100
                  saved := it.saved + it.total * c.discount / 100 }) ∧
    (coupon_apply o items c).1.total =
      o.total - (items.map (itemDiscount c)).sum ∧
    (coupon_apply o items c).1.sub_total =
      o.sub_total - (items.map (itemDiscount c)).sum ∧
    (coupon_apply o items c).1.saved =
      o.saved + (items.map (itemDiscount c)).sum := by
  have hsum : 0 ≤ (items.map (itemDiscount c)).sum := by
    apply List.sum_nonneg
    intro x hx
    rcases List.mem_map.mp hx with ⟨it, hit, rfl⟩
    unfold itemDiscount
    split_ifs
    · exact div_nonneg (mul_nonneg (hpos it hit) hd) (by norm_num)
    · exact le_refl 0
  have horder : (coupon_apply o items c).1.total =
        o.total - (items.map (itemDiscount c)).sum ∧
      (coupon_apply o items c).1.sub_total =
        o.sub_total - (items.map (itemDiscount c)).sum ∧
      (coupon_apply o items c).1.saved =
        o.saved + (items.map (itemDiscount c)).sum := by
    by_cases ht : 0 < (items.map (itemDiscount c)).sum
    · simp [coupon_apply, hnew, ht]
    · have hz : (items.map (itemDiscount c)).sum = 0 :=
        le_antisymm (not_lt.mp ht) hsum
      simp [coupon_apply, hnew, ht, hz]
  refine ⟨?_, ?_, ?_, horder.1, horder.2.1, horder.2.2⟩
  · by_cases ht : 0 < (items.map (itemDiscount c)).sum <;>
      simp [coupon_apply, hnew, ht]
  · intro it _ hne
    unfold applyCouponToItem
    rw [if_neg hne]
  · intro it _ h1 h2
    unfold applyCouponToItem
    rw [if_pos ⟨h1, h2⟩]

/-- Witness for C4: the concrete two-vendor order discounts vendor 1's item
by 5 and the order total drops by exactly that sum. -/
theorem claim_c4_witness :
    (coupon_apply orderW4 [itemAW, itemBW] couponW).1.total =
      orderW4.total - (([itemAW, itemBW]).map (itemDiscount couponW)).sum :=
  (claim_c4_coupon_vendor_scoped orderW4 [itemAW, itemBW] couponW (by decide)
    (by decide) (by decide)).2.2.2.1

/-- Counterexample to C5: a Flutterwave verification response with HTTP
status 200 whose provider-reported transaction status is "failed" still
transitions the order to Paid — the view never reads the provider-reported
status, contradicting the claim that an unsuccessful provider status yields
the Failed outcome and never Paid. -/
theorem claim_c5_counterexample :
    (flutterwave_payment_callback (some (200, "failed")) (some "Flutterwave")
      procOrderW).2.2 = Outcome.redirectPaid ∧
    (flutterwave_payment_callback (some (200, "failed")) (some "Flutterwave")
      procOrderW).1.payment_status = "Paid" := by
  exact ⟨rfl, rfl⟩

/-- C5 as amended: the Flutterwave callback transitions the order to Paid
exactly when the verification HTTP response has status 200 and the order is
in Processing, regardless of the provider-reported transaction status (which
the code never consults); any non-200 response yields the Failed redirect,
and a network error raises an unhandled exception instead of yielding
Failed. -/
theorem claim_c5_flutterwave_http_only (resp : Option (Nat × String))
    (pm : Option String) (o : Order) :
    ((flutterwave_payment_callback resp pm o).2.2 = Outcome.redirectPaid ↔
      (∃ st, resp = some (200, st)) ∧ o.payment_status = "Processing") ∧
    (∀ code st, resp = some (code, st) → code ≠ 200 →
      flutterwave_payment_callback resp pm o =
        (o, noEffects, Outcome.redirectFailed)) ∧
    (∀ code st, resp = some (code, st) → code = 200 →
      o.payment_status ≠ "Processing" →
      flutterwave_payment_callback resp pm o =
        (o, noEffects, Outcome.redirectFailed)) ∧
    (resp = none →
      flutterwave_payment_callback resp pm o = (o, noEffects, Outcome.exn)) := by
  refine ⟨⟨?_, ?_⟩, ?_, ?_, ?_⟩
  · intro hp
    rcases resp with _ | ⟨code, st⟩
    · simp [flutterwave_payment_callback] at hp
    · by_cases hc : code = 200
      · subst hc
        by_cases hs : o.payment_status = "Processing"
        · exact ⟨⟨st, rfl⟩, hs⟩
        · simp [flutterwave_payment_callback, hs] at hp
      · simp [flutterwave_payment_callback, hc] at hp
  · rintro ⟨⟨st, rfl⟩, hs⟩
    simp [flutterwave_payment_callback, hs]
  · rintro code st rfl hc
    simp [flutterwave_payment_callback, hc]
  · rintro code st rfl rfl hs
    simp [flutterwave_payment_callback, hs]
  · rintro rfl
    rfl

/-- Witness for C5 as amended: a 404 verification response produces the
failure redirect with the order untouched. -/
theorem claim_c5_witness :
    flutterwave_payment_callback (some (404, "x")) none procOrderW =
      (procOrderW, noEffects, Outcome.redirectFailed) :=
  (claim_c5_flutterwave_http_only (some (404, "x")) none procOrderW).2.1 404 "x"
    rfl (by decide)

/-- Counterexample to C6: the PayPal verification view, on an HTTP 200
response whose status is not COMPLETED, returns Python `None` — no redirect
to the payment-status page at all, with neither the paid nor the failed
flag. -/
theorem claim_c6_counterexample :
    (runCallback (.paypal true (some (200, "PENDING")) none) procOrderW []).2.2 =
      Outcome.noResponse ∧
    Outcome.noResponse ≠ Outcome.redirectPaid ∧
    Outcome.noResponse ≠ Outcome.redirectFailed := by
  exact ⟨rfl, by decide, by decide⟩

/-- C6 as amended: every verification adapter invocation ends in a redirect
to the payment-status page flagged paid or failed, except that (a) a raising
provider interaction (failed Stripe session retrieval, failed PayPal token
fetch, network error, raising Razorpay signature verification) propagates as
an unhandled exception, and (b) the PayPal adapter returns no response at
all when the verification response is HTTP 200 with a status other than
COMPLETED or with an order no longer in Processing. -/
theorem claim_c6_redirect_contract (cb : PayCallback) (o : Order)
    (items : List OrderItem) :
    (runCallback cb o items).2.2 = Outcome.redirectPaid ∨
    (runCallback cb o items).2.2 = Outcome.redirectFailed ∨
    ((runCallback cb o items).2.2 = Outcome.exn ∧ cbRaises cb = true) ∨
    ((runCallback cb o items).2.2 = Outcome.noResponse ∧
      paypalFallsThrough cb o = true) := by
  cases cb with
  | stripe s =>
    rcases s with _ | st
    · exact Or.inr (Or.inr (Or.inl ⟨rfl, rfl⟩))
    · simp only [runCallback, stripe_payment_verify]
      split_ifs <;> simp_all
  | paypal t r pm =>
    cases t
    · exact Or.inr (Or.inr (Or.inl ⟨rfl, rfl⟩))
    · rcases r with _ | ⟨code, st⟩
      · exact Or.inr (Or.inr (Or.inl ⟨rfl, rfl⟩))
      · by_cases hc : code = 200
        · subst hc
          by_cases hst : st = "COMPLETED"
          · subst hst
            by_cases hs : o.payment_status = "Processing"
            · simp [runCallback, paypal_payment_verify, hs]
            · refine Or.inr (Or.inr (Or.inr ⟨?_, ?_⟩))
              · simp [runCallback, paypal_payment_verify, hs]
              · simp [paypalFallsThrough, hs]
          · refine Or.inr (Or.inr (Or.inr ⟨?_, ?_⟩))
            · simp [runCallback, paypal_payment_verify, hst]
            · simp [paypalFallsThrough, hst]
        · simp [runCallback, paypal_payment_verify, hc]
  | razorpay p sv pm =>
    cases p
    · exact Or.inr (Or.inl rfl)
    · cases sv
      · exact Or.inr (Or.inr (Or.inl ⟨rfl, rfl⟩))
      · simp only [runCallback, razorpay_payment_verify]
        split_ifs <;> simp_all
  | paystack ref r pm =>
    by_cases hr : ref = ""
    · subst hr
      exact Or.inr (Or.inl rfl)
    · rcases r with _ | ⟨flag, ds⟩
      · refine Or.inr (Or.inr (Or.inl ⟨?_, ?_⟩))
        · simp [runCallback, paystack_payment_verify, hr]
        · simp [cbRaises, hr]
      · simp only [runCallback, paystack_payment_verify]
        split_ifs <;> simp_all
  | flutterwave r pm =>
    rcases r with _ | ⟨code, st⟩
    · exact Or.inr (Or.inr (Or.inl ⟨rfl, rfl⟩))
    · simp only [runCallback, flutterwave_payment_callback]
      split_ifs <;> simp_all

/-- Counterexample to C7: a checkout submission with a selected address and
an empty cart does not fail with an `EmptyCart` validation error; the view
raises an unhandled exception (the `Sum` aggregates are `None` and the total
arithmetic raises `TypeError` before `order.save()`). -/
theorem claim_c7_counterexample :
    create_order taxS feeS (some "addr1") true "US" [] =
      CreateOrderResult.exn ∧
    isValidationAbort (create_order taxS feeS (some "addr1") true "US" []) =
      false := by
  exact ⟨rfl, rfl⟩

/-- C7 as amended: a checkout submission with a non-empty address id and an
empty cart aborts with an unhandled exception before any order is saved —
no Order and no OrderItems are created — but no `EmptyCart` validation error
is surfaced to the user. -/
theorem claim_c7_empty_cart_exception (tax : String → ℚ → ℚ) (fee : ℚ → ℚ)
    (addressId : Option String) (addressExists : Bool) (country : String)
    (h : truthy addressId = true) :
    create_order tax fee addressId addressExists country [] =
      CreateOrderResult.exn ∧
    ∀ (o : Order) (items : List OrderItem),
      create_order tax fee addressId addressExists country [] ≠
        CreateOrderResult.created o items := by
  have h1 : create_order tax fee addressId addressExists country [] =
      CreateOrderResult.exn := by
    cases addressExists <;> simp [create_order, h]
  refine ⟨h1, fun o items hco => ?_⟩
  rw [h1] at hco
  cases hco

/-- Witness for C7 as amended: the concrete empty-cart submission raises. -/
theorem claim_c7_witness :
    truthy (some "addr1") = true ∧
    create_order taxS feeS (some "addr1") true "US" [] =
      CreateOrderResult.exn :=
  ⟨rfl, (claim_c7_empty_cart_exception taxS feeS (some "addr1") true "US"
    rfl).1⟩

/-- Counterexample to C8: a Stripe success callback on an order with two
items belonging to the single vendor 7 dispatches two vendor messages (one
per item), not the single per-distinct-vendor message the claim requires. -/
theorem claim_c8_counterexample :
    (runCallback (.stripe (some "paid")) procOrderW
      [itemV7a, itemV7b]).2.1.vendorMessages = [7, 7] ∧
    itemV7a.vendorId = 7 ∧ itemV7b.vendorId = 7 ∧
    ([7, 7] : List Nat).length ≠ 1 := by
  refine ⟨rfl, rfl, rfl, by decide⟩

/-- C8 as amended: on the permitted Processing to Paid transition, the
Stripe and Razorpay adapters dispatch one confirmation message per order
item, addressed to that item's vendor — so an order with k items of one
vendor yields k vendor messages, not one. -/
theorem claim_c8_per_item_vendor_messages (o : Order)
    (items : List OrderItem) (pm : Option String)
    (h : o.payment_status = "Processing") :
    (runCallback (.stripe (some "paid")) o items).2.1.vendorMessages =
      items.map (fun it => it.vendorId) ∧
    (runCallback (.razorpay true true pm) o items).2.1.vendorMessages =
      items.map (fun it => it.vendorId) := by
  constructor <;>
    simp [runCallback, stripe_payment_verify, razorpay_payment_verify, h]

/-- Witness for C8 as amended: one item of vendor 7 yields exactly the one
message `[7]`. -/
theorem claim_c8_witness :
    (runCallback (.stripe (some "paid")) procOrderW
      [itemV7a]).2.1.vendorMessages = [7] := by
  have h := (claim_c8_per_item_vendor_messages procOrderW [itemV7a] none
    rfl).1
  simpa [itemV7a, mkItemW] using h

/-- A first-match search returns the unique matching element of a list. -/
theorem find?_eq_some_of_unique {α : Type} (p : α → Bool) (l : List α)
    (x : α) (hx : x ∈ l) (hpx : p x = true)
    (hu : ∀ y ∈ l, p y = true → y = x) : l.find? p = some x := by
  induction l with
  | nil => cases hx
  | cons a t ih =>
    by_cases hpa : p a = true
    · have hax : a = x := hu a (List.mem_cons_self a t) hpa
      rw [List.find?_cons_of_pos _ hpa, hax]
    · rw [List.find?_cons_of_neg _ hpa]
      have hx' : x ∈ t := by
        rcases List.mem_cons.mp hx with h | h
        · exact absurd (h ▸ hpx) hpa
        · exact h
      exact ih hx' (fun y hy hpy => hu y (List.mem_cons_of_mem a hy) hpy)

/-- Counterexample to C9: looking up a value that matches neither the item
identifier nor the tracking identifier of any stored item renders the
tracker page normally with no item (`.first()` returns `None` without
raising), instead of producing the NotFound error redirect the claim
requires. -/
theorem claim_c9_counterexample :
    order_tracker_detail [itemT] "missing" = TrackerResult.rendersItem none ∧
    order_tracker_detail [itemT] "missing" ≠ TrackerResult.errorRedirect := by
  refine ⟨rfl, by decide⟩

/-- C9 as amended: when one stored item is the unique match for both its
item identifier and its tracking identifier, lookup by either returns that
same item; lookup by a value matching neither field of any item renders the
tracker page with no item rather than reaching the error redirect. -/
theorem claim_c9_tracker_lookup (items : List OrderItem) (it : OrderItem)
    (a b : String) (hmem : it ∈ items) (ha : it.item_id = a)
    (hb : it.tracking_id = b)
    (hu : ∀ j ∈ items,
      (j.item_id = a ∨ j.tracking_id = a ∨ j.item_id = b ∨ j.tracking_id = b) →
        j = it) :
    order_tracker_detail items a = TrackerResult.rendersItem (some it) ∧
    order_tracker_detail items b = TrackerResult.rendersItem (some it) ∧
    ∀ q, (∀ j ∈ items, j.item_id ≠ q ∧ j.tracking_id ≠ q) →
      order_tracker_detail items q = TrackerResult.rendersItem none := by
  refine ⟨?_, ?_, ?_⟩
  · unfold order_tracker_detail
    congr 1
    apply find?_eq_some_of_unique _ _ it hmem
    · simp [ha]
    · intro y hy hpy
      simp only [Bool.or_eq_true, beq_iff_eq] at hpy
      exact hu y hy (by tauto)
  · unfold order_tracker_detail
    congr 1
    apply find?_eq_some_of_unique _ _ it hmem
    · simp [hb]
    · intro y hy hpy
      simp only [Bool.or_eq_true, beq_iff_eq] at hpy
      exact hu y hy (by tauto)
  · intro q hq
    unfold order_tracker_detail
    congr 1
    rw [List.find?_eq_none]
    intro j hj
    have hjq := hq j hj
    simp only [Bool.or_eq_true, beq_iff_eq]
    rintro (h | h)
    · exact hjq.1 h
    · exact hjq.2 h

/-- Witness for C9 as amended: lookup of the concrete item by its item
identifier succeeds. -/
theorem claim_c9_witness :
    order_tracker_detail [itemT] "ITEM1" =
      TrackerResult.rendersItem (some itemT) :=
  (claim_c9_tracker_lookup [itemT] itemT "ITEM1" "TRK1" (by simp) rfl rfl
    (by intro j hj _; simpa using hj)).1

/-- C10: the 400 "Item or Product id not found" response of
`delete_cart_item` is returned exactly when the product id, the item id and
the cart id are all absent (falsy) simultaneously; when at least one is
supplied the parameter check is skipped and the handler proceeds to the
product lookup. -/
theorem claim_c10_delete_param_check (id item_id cart_id : Option String)
    (findProduct : Option String → Option Nat)
    (findCartItem : Nat → Option String → Option Nat) :
    (delete_cart_item id item_id cart_id findProduct findCartItem =
        DeleteOutcome.paramError ↔
      (truthy id = false ∧ truthy item_id = false ∧ truthy cart_id = false)) ∧
    ((truthy id || truthy item_id || truthy cart_id) = true →
      delete_cart_item id item_id cart_id findProduct findCartItem ≠
        DeleteOutcome.paramError) := by
  have hne : ¬(!truthy id && !truthy item_id && !truthy cart_id) = true →
      delete_cart_item id item_id cart_id findProduct findCartItem ≠
        DeleteOutcome.paramError := by
    intro h
    unfold delete_cart_item
    rw [if_neg h]
    rcases hfp : findProduct id with _ | p
    · simp [hfp]
    · rcases hfc : findCartItem p item_id with _ | line <;> simp [hfp, hfc]
  constructor
  · constructor
    · intro hp
      by_cases hc : (!truthy id && !truthy item_id && !truthy cart_id) = true
      · simp only [Bool.and_eq_true, Bool.not_eq_true'] at hc
        exact ⟨hc.1.1, hc.1.2, hc.2⟩
      · exact absurd hp (hne hc)
    · rintro ⟨h1, h2, h3⟩
      unfold delete_cart_item
      rw [if_pos (by simp [h1, h2, h3])]
  · intro ht hp
    by_cases hc : (!truthy id && !truthy item_id && !truthy cart_id) = true
    · simp only [Bool.and_eq_true, Bool.not_eq_true'] at hc
      simp [hc.1.1, hc.1.2, hc.2] at ht
    · exact hne hc hp

/-- Witness for C10: the request with all three parameters absent receives
the 400 parameter error. -/
theorem claim_c10_witness :
    delete_cart_item none none none (fun _ => none) (fun _ _ => none) =
      DeleteOutcome.paramError :=
  (claim_c10_delete_param_check none none none (fun _ => none)
    (fun _ _ => none)).1.mpr ⟨rfl, rfl, rfl⟩

end ECom
